import Mathlib

/-!
Shallow embedding of the repository UE_SetupScripts, file src/Scripts/Setup.py.

The script is a linear cleanup-and-regenerate tool for an Unreal Engine
project.  We model:

* the file system as an inductive tree of named entries (`FSEntry`), with a
  listing order matching os.listdir;
* the module constant `folders` and the cleaner functions `clear_directory`
  and `clean_project`;
* the process scanner `is_process_running`, `is_running_vs_solution` and
  `is_running_ue_solution` over an explicit process table;
* `resolve_engine_path`, `create_project` and `main` as functions over an
  explicit environment record, returning an outcome, the final file system
  state and the printed events.

Fallible operations (os.listdir on a non-directory raises) return `Option`;
`none` models an uncaught Python exception.  Python str.lower is modelled
ASCII-wise via Char.toLower, and the `in` substring test via an explicit
scan, both kernel-reducible.
-/

namespace SetupPy

/-- ASCII lowercasing, modelling the Python str.lower calls in Setup.py. -/
def pyLower (s : String) : String := String.mk (s.data.map Char.toLower)

/-- Membership of a needle as a contiguous sublist, used to model the Python
substring operator on strings (lowered lists of characters). -/
def subListOf (needle : List Char) : List Char → Bool
  | [] => needle.isEmpty
  | h :: t => needle.isPrefixOf (h :: t) || subListOf needle t

/-- Python substring test: needle occurs contiguously inside hay. -/
def strContains (hay needle : String) : Bool := subListOf needle.data hay.data

/-- Target folders to delete: the module constant `folders` of Setup.py,
lines 11 to 17. -/
def folders : List String := [".vs", "Binaries", "DerivedDataCache", "Intermediate", "Saved"]

/-- Extension component of os.path.splitext for a bare entry name (no path
separators): the suffix starting at the last dot, except that a name whose
characters before that dot are all dots has no extension. -/
def splitext_ext (s : String) : String :=
  match s.data.reverse.span (fun c => c != '.') with
  | (_, []) => ""
  | (extRev, _ :: beforeRev) =>
      if beforeRev.any (fun c => c != '.') then String.mk ('.' :: extRev.reverse) else ""

/-- A file system entry: a plain file, or a directory holding named children
in listing order.  Entry names are the bare component names. -/
inductive FSEntry where
  | file : FSEntry
  | dir (children : List (String × FSEntry)) : FSEntry

/-- Whether an entry is a directory, modelling os.path.isdir on an existing
entry. -/
def FSEntry.isDirB : FSEntry → Bool
  | .file => false
  | .dir _ => true

/-- Child of a directory listing under a given name, modelling path joining
followed by a file system query. -/
def lookupChild (cs : List (String × FSEntry)) (k : String) : Option FSEntry :=
  (cs.find? (fun p => p.1 == k)).map (fun p => p.2)

/-- Replace the child stored under a name, keeping listing order. -/
def updateChild (cs : List (String × FSEntry)) (k : String) (v : FSEntry) :
    List (String × FSEntry) :=
  cs.map (fun p => if p.1 == k then (p.1, v) else p)

/-- Navigate an entry along a relative path of component names. -/
def entryAt : List String → FSEntry → Option FSEntry
  | [], e => some e
  | _ :: _, .file => none
  | n :: rest, .dir cs => (lookupChild cs n).bind (entryAt rest)

/-- The solution-file test of Setup.py line 114:
os.path.splitext(path_name)[-1].lower() == .sln. -/
def isSolutionName (name : String) : Bool := pyLower (splitext_ext name) == ".sln"

/-- Whether one pass of `clear_directory` removes a child: a directory whose
name is listed in `folders` (line 110), or a file whose lowered extension is
.sln (line 114). -/
def shouldRemove : String × FSEntry → Bool
  | (n, .dir _) => folders.contains n
  | (n, .file) => isSolutionName n

/-- Children surviving one pass of `clear_directory` over a listing. -/
def clearChildren (cs : List (String × FSEntry)) : List (String × FSEntry) :=
  cs.filter (fun p => !shouldRemove p)

/-- Setup.py lines 105 to 117: iterate os.listdir(target_path); delete the
matched directories with shutil.rmtree and the matched solution files with
os.remove; touch nothing else.  Applying it to a plain file is the uncaught
os.listdir error, modelled as `none`. -/
def clear_directory : FSEntry → Option FSEntry
  | .file => none
  | .dir cs => some (.dir (clearChildren cs))

/-- The loop of Setup.py lines 137 to 140: run `clear_directory` on every
immediate child of the Plugins directory, in listing order.  A child that is
a plain file makes the corresponding clear_directory call raise, so the whole
run fails (`none`). -/
def clearPlugins : List (String × FSEntry) → Option (List (String × FSEntry))
  | [] => some []
  | (n, e) :: rest =>
      (clear_directory e).bind (fun e' => (clearPlugins rest).map (fun rest' => (n, e') :: rest'))

/-- Setup.py lines 125 to 140, taking the project root directory (the dirname
of the .uproject path) as the entry to clean.  Returns the final root state
and a flag that is true exactly when the missing-Plugins warning of line 133
was printed.  `none` models an uncaught exception: the root path is not a
directory, the Plugins entry exists but is not a directory (os.path.exists
succeeds, os.listdir then raises), or some immediate child of Plugins is a
plain file. -/
def clean_project : FSEntry → Option (FSEntry × Bool)
  | .file => none
  | .dir cs =>
      let cs1 := clearChildren cs
      match lookupChild cs1 "Plugins" with
      | none => some (.dir cs1, true)
      | some .file => none
      | some (.dir ps) =>
          (clearPlugins ps).map (fun ps' => (.dir (updateChild cs1 "Plugins" (.dir ps')), false))

/-- Trace instrumentation of the Plugins loop of `clean_project`: the
relative paths passed to `clear_directory`, in call order.  A plain-file
child still receives its call (which then raises), and the loop stops
there. -/
def pluginCalls : List (String × FSEntry) → List (List String)
  | [] => []
  | (n, .file) :: _ => [["Plugins", n]]
  | (n, .dir _) :: rest => ["Plugins", n] :: pluginCalls rest

/-- Trace instrumentation of `clean_project`: every path, relative to the
project root, on which `clear_directory` is invoked, in call order.  The root
itself is the empty path; the Plugins entry is inspected in the state left by
the root cleanup. -/
def clean_project_calls : FSEntry → List (List String)
  | .file => [[]]
  | .dir cs =>
      [] :: (match lookupChild (clearChildren cs) "Plugins" with
        | none => []
        | some .file => []
        | some (.dir ps) => pluginCalls ps)

/-- A running OS process as reported by psutil.process_iter: its name and its
command line. -/
structure Process where
  name : String
  cmdline : List String

/-- Setup.py lines 25 to 35: scan the process table and return the first
process whose lowered name contains the lowered target name as a substring;
`none` when no process matches. -/
def is_process_running (process_name : String) (procs : List Process) : Option Process :=
  procs.find? (fun p => strContains (pyLower p.name) (pyLower process_name))

set_option linter.unusedVariables false in
/-- Setup.py lines 43 to 55.  The uproject_path argument is accepted but
never used: the TODO comment on line 49 treats every Visual Studio instance
as running the solution.  Returns true exactly when some process whose name
contains devenv.exe is found, printing the close-Visual-Studio warning. -/
def is_running_vs_solution (uproject_path : String) (procs : List Process) : Bool :=
  (is_process_running "devenv.exe" procs).isSome

/-- Final path component, modelling os.path.basename on a posix path. -/
def basename (p : String) : String :=
  String.mk ((p.data.reverse.takeWhile (fun c => c != '/')).reverse)

/-- Whether some command-line argument of the process contains the lowered
solution name (Setup.py lines 70 to 74). -/
def cmdlineMatches (solution : String) (p : Process) : Bool :=
  p.cmdline.any (fun arg => strContains (pyLower arg) solution)

/-- Setup.py lines 63 to 76: for each known editor binary name, find a
matching process and report true when one of its command-line arguments
contains the lowered basename of the uproject path. -/
def is_running_ue_solution (uproject_path : String) (procs : List Process) : Bool :=
  let solution := pyLower (basename uproject_path)
  ["UE4Editor.exe", "UnrealEditor.exe"].any (fun editor =>
    match is_process_running editor procs with
    | none => false
    | some p => cmdlineMatches solution p)

/-- Printed messages of the script that the claims mention, tagged by which
print statement of Setup.py produced them. -/
inductive Event where
  | diagMissingEpicDir
  | diagInvalidEnginePath
  | diagInvalidProject
  | warnCloseVS
  | warnCloseUE
  | warnNoPlugins
  | launchedBuild
  | buildSuccess
  | buildFailure
  | diagMissingBuildTool

/-- Result of `resolve_engine_path`: a fatal branch prints its diagnostic and
calls sys.exit(1); the ok branch carries the validated engine path. -/
inductive ResolveOutcome where
  | fatal (e : Event)
  | ok (path : String)

/-- Path joining as used here, modelling os.path.join on already-clean posix
segments. -/
def joinPath (a b : String) : String := a ++ "/" ++ b

/-- Setup.py lines 83 to 98: read EPIC_DIR (a missing or empty value is the
falsy branch of line 86), join it with the engine version, and require the
result to be an existing directory.  `epicDir` models os.environ.get and
`dirs` models the set of paths for which os.path.isdir is true. -/
def resolve_engine_path (engine_version : String) (epicDir : Option String)
    (dirs : List String) : ResolveOutcome :=
  match epicDir with
  | none => .fatal .diagMissingEpicDir
  | some epic =>
      if epic == "" then .fatal .diagMissingEpicDir
      else
        let full := joinPath epic engine_version
        if dirs.contains full then .ok full else .fatal .diagInvalidEnginePath

/-- Setup.py line 149: the fixed relative location of the build tool under
the engine installation. -/
def build_script_path (engine_path : String) : String :=
  joinPath (joinPath (joinPath (joinPath (joinPath engine_path "Engine") "Binaries")
    "DotNET") "UnrealBuildTool") "UnrealBuildTool.dll"

/-- Result of `create_project`: `aborted` is the sys.exit(1) of line 154 when
the build tool is missing; `completed success` is a normal return, with
success exactly when the external process returncode was zero. -/
inductive CreateResult where
  | aborted
  | completed (success : Bool)

/-- Setup.py lines 148 to 163: require the build tool file to exist, run the
external regeneration subprocess, log success or failure from its returncode
and return normally either way.  `files` models the set of paths for which
os.path.isfile is true; `returncode` is the exit code of the external
subprocess. -/
def create_project (engine_path : String) (files : List String) (returncode : Int) :
    CreateResult × List Event :=
  if files.contains (build_script_path engine_path) then
    (.completed (returncode == 0),
      [.launchedBuild, if returncode == 0 then .buildSuccess else .buildFailure])
  else (.aborted, [.diagMissingBuildTool])

/-- How a whole run terminates: normal end of main (process exit status 0),
sys.exit(1), or an uncaught exception. -/
inductive Outcome where
  | ok
  | exit1
  | crashed

/-- Observable result of a run: outcome, final state of the project root
directory (`none` when the run crashed mid-cleanup and the partial state is
not tracked), whether clean_project was entered, whether the external
regeneration subprocess was launched, and the printed events. -/
structure MainResult where
  outcome : Outcome
  root : Option FSEntry
  cleanReached : Bool
  subprocessRan : Bool
  events : List Event

/-- The ambient world of one invocation: environment variable, which paths
are directories and files, the project path argument and whether it is an
existing file, the process table, the contents of the project root
directory, and the returncode the external tool would produce. -/
structure Env where
  epicDir : Option String
  dirs : List String
  files : List String
  projectPath : String
  projectIsFile : Bool
  procs : List Process
  root : FSEntry
  buildReturncode : Int

/-- Setup.py lines 172 to 191: resolve the engine path, validate the project
file, abort if Visual Studio or the Unreal editor is running, clean the
project, regenerate the solution.  Short-circuit order of line 187 is kept:
the Visual Studio check runs first and suppresses the editor check. -/
def main (engine_version : String) (w : Env) : MainResult :=
  match resolve_engine_path engine_version w.epicDir w.dirs with
  | .fatal e => ⟨.exit1, some w.root, false, false, [e]⟩
  | .ok engine_path =>
      if w.projectIsFile = false then ⟨.exit1, some w.root, false, false, [.diagInvalidProject]⟩
      else if is_running_vs_solution w.projectPath w.procs then
        ⟨.exit1, some w.root, false, false, [.warnCloseVS]⟩
      else if is_running_ue_solution w.projectPath w.procs then
        ⟨.exit1, some w.root, false, false, [.warnCloseUE]⟩
      else
        match clean_project w.root with
        | none => ⟨.crashed, none, true, false, []⟩
        | some (root1, warned) =>
            let ce := if warned then [Event.warnNoPlugins] else []
            match create_project engine_path w.files w.buildReturncode with
            | (.aborted, es) => ⟨.exit1, some root1, true, false, ce ++ es⟩
            | (.completed _, es) => ⟨.ok, some root1, true, true, ce ++ es⟩

/-! ## Helper lemmas -/

/-- One cleanup pass over a listing is idempotent: filtering twice with the
same predicate filters once. -/
theorem clearChildren_idem (cs : List (String × FSEntry)) :
    clearChildren (clearChildren cs) = clearChildren cs := by
  simp [clearChildren, List.filter_filter]

/-- A name absent from a listing is absent from the cleaned listing. -/
theorem lookupChild_clearChildren_none (cs : List (String × FSEntry)) (k : String)
    (h : lookupChild cs k = none) : lookupChild (clearChildren cs) k = none := by
  simp only [lookupChild, Option.map_eq_none', List.find?_eq_none] at h ⊢
  intro p hp
  exact h p (List.mem_filter.mp hp).1

/-- Applying `clear_directory` raises exactly on a non-directory entry. -/
theorem clear_directory_eq_none (e : FSEntry) : clear_directory e = none ↔ e = .file := by
  cases e <;> simp [clear_directory]

/-- The Plugins loop raises exactly when some immediate child of Plugins is a
plain file. -/
theorem clearPlugins_eq_none (ps : List (String × FSEntry)) :
    clearPlugins ps = none ↔ ∃ n, (n, FSEntry.file) ∈ ps := by
  induction ps with
  | nil => simp [clearPlugins]
  | cons p rest ih =>
      obtain ⟨n, e⟩ := p
      cases e with
      | file =>
          constructor
          · intro _
            exact ⟨n, List.mem_cons_self _ _⟩
          · intro _
            rfl
      | dir cs =>
          have hstep : clearPlugins ((n, FSEntry.dir cs) :: rest)
              = (clearPlugins rest).map
                  (fun rest' => (n, FSEntry.dir (clearChildren cs)) :: rest') := rfl
          rw [hstep]
          constructor
          · intro hnone
            have hrest : clearPlugins rest = none := by
              cases hr : clearPlugins rest with
              | none => rfl
              | some v => rw [hr] at hnone; exact Option.noConfusion hnone
            obtain ⟨m, hm⟩ := ih.mp hrest
            exact ⟨m, List.mem_cons_of_mem _ hm⟩
          · rintro ⟨m, hm⟩
            rcases List.mem_cons.mp hm with heq | hmem
            · exact absurd (congrArg Prod.snd heq) (fun hc => FSEntry.noConfusion hc)
            · rw [ih.mpr ⟨m, hmem⟩]
              rfl

/-- The Plugins loop trace when every immediate child is a directory: one
call per child, in listing order. -/
theorem pluginCalls_all_dirs (ps : List (String × FSEntry))
    (h : ∀ p ∈ ps, FSEntry.isDirB p.2 = true) :
    pluginCalls ps = ps.map (fun p => ["Plugins", p.1]) := by
  induction ps with
  | nil => rfl
  | cons p rest ih =>
      obtain ⟨n, e⟩ := p
      cases e with
      | file =>
          have := h (n, FSEntry.file) (List.mem_cons_self _ _)
          simp [FSEntry.isDirB] at this
      | dir cs =>
          simp [pluginCalls, ih (fun q hq => h q (List.mem_cons_of_mem _ hq))]

/-! ## Claim theorems -/

/-- C2: for a root directory whose immediate children are the directories
.vs, Binaries, Other and the file MyGame.sln, after clear_directory the
entries .vs, Binaries and MyGame.sln no longer exist and Other still
exists. -/
theorem clear_directory_scenario :
    clear_directory (.dir [(".vs", .dir []), ("Binaries", .dir []),
        ("Other", .dir []), ("MyGame.sln", .file)])
      = some (.dir [("Other", FSEntry.dir [])]) ∧
    lookupChild [("Other", FSEntry.dir [])] ".vs" = none ∧
    lookupChild [("Other", FSEntry.dir [])] "Binaries" = none ∧
    lookupChild [("Other", FSEntry.dir [])] "MyGame.sln" = none ∧
    lookupChild [("Other", FSEntry.dir [])] "Other" = some (FSEntry.dir []) :=
  ⟨rfl, rfl, rfl, rfl, rfl⟩

/-- C3: a child directory whose name is not in the artifact name set, or a
child file whose lowered extension is not .sln, survives clear_directory
with its entire contents unchanged; clear_directory never descends into kept
subdirectories (the kept entry is the same tree). -/
theorem clear_directory_frame (cs : List (String × FSEntry)) (n : String) (e : FSEntry)
    (hmem : (n, e) ∈ cs)
    (hdir : ∀ cs0, e = .dir cs0 → folders.contains n = false)
    (hfile : e = .file → isSolutionName n = false) :
    clear_directory (.dir cs) = some (.dir (clearChildren cs)) ∧ (n, e) ∈ clearChildren cs := by
  refine ⟨rfl, List.mem_filter.mpr ⟨hmem, ?_⟩⟩
  cases e with
  | file =>
      show (!isSolutionName n) = true
      rw [hfile rfl]
      rfl
  | dir cs0 =>
      show (!folders.contains n) = true
      rw [hdir cs0 rfl]
      rfl

/-- Witness for C3 at a concrete listing: the directory Other (with its
content) and the file notes.txt survive. -/
theorem clear_directory_frame_witness :
    clear_directory (.dir [("Other", FSEntry.dir [("keep.txt", FSEntry.file)]),
        ("notes.txt", FSEntry.file)])
      = some (.dir (clearChildren [("Other", FSEntry.dir [("keep.txt", FSEntry.file)]),
        ("notes.txt", FSEntry.file)])) ∧
    ("Other", FSEntry.dir [("keep.txt", FSEntry.file)])
      ∈ clearChildren [("Other", FSEntry.dir [("keep.txt", FSEntry.file)]),
        ("notes.txt", FSEntry.file)] :=
  clear_directory_frame _ _ _ (by simp) (fun _ _ => by decide) (fun h => FSEntry.noConfusion h)

/-- C4: clear_directory is idempotent (running it twice yields the state of
running it once, on any entry), and on a directory that already contains no
artifact-set subdirectory and no solution file it changes nothing. -/
theorem clear_directory_idem (fs : FSEntry) :
    (clear_directory fs).bind clear_directory = clear_directory fs ∧
    (∀ cs, fs = .dir cs → (∀ p ∈ cs, shouldRemove p = false) →
      clear_directory fs = some fs) := by
  constructor
  · cases fs with
    | file => rfl
    | dir cs =>
        show some (FSEntry.dir (clearChildren (clearChildren cs)))
          = some (FSEntry.dir (clearChildren cs))
        rw [clearChildren_idem]
  · rintro cs rfl h
    show some (FSEntry.dir (clearChildren cs)) = some (FSEntry.dir cs)
    have : clearChildren cs = cs :=
      List.filter_eq_self.mpr (fun p hp => by simp [h p hp])
    rw [this]

/-- Witness for C4 at a concrete clean directory. -/
theorem clear_directory_idem_witness :
    (clear_directory (FSEntry.dir [("Other", FSEntry.dir [])])).bind clear_directory
      = clear_directory (FSEntry.dir [("Other", FSEntry.dir [])]) ∧
    clear_directory (FSEntry.dir [("Other", FSEntry.dir [])])
      = some (FSEntry.dir [("Other", FSEntry.dir [])]) :=
  ⟨(clear_directory_idem _).1, (clear_directory_idem _).2 _ rfl (by decide)⟩

/-- C1 (amended): for a project root directory, clean_project invokes
clear_directory on exactly the root plus each immediate child of Plugins
when every such child is a directory (and on no deeper path: every call path
has at most two components); when no Plugins entry survives in the root,
only the root itself is cleaned. -/
theorem clean_project_calls_exact (cs : List (String × FSEntry)) :
    (lookupChild (clearChildren cs) "Plugins" = none →
      clean_project_calls (.dir cs) = [[]]) ∧
    (∀ ps, lookupChild (clearChildren cs) "Plugins" = some (.dir ps) →
      (∀ p ∈ ps, FSEntry.isDirB p.2 = true) →
      clean_project_calls (.dir cs) = [] :: ps.map (fun p => ["Plugins", p.1]) ∧
      ∀ c ∈ clean_project_calls (.dir cs), c.length ≤ 2) := by
  constructor
  · intro h
    simp [clean_project_calls, h]
  · intro ps h hd
    have heq : clean_project_calls (.dir cs) = [] :: ps.map (fun p => ["Plugins", p.1]) := by
      simp [clean_project_calls, h, pluginCalls_all_dirs ps hd]
    refine ⟨heq, ?_⟩
    rw [heq]
    intro c hc
    rcases List.mem_cons.mp hc with rfl | hc
    · simp
    · obtain ⟨p, hp, rfl⟩ := List.mem_map.mp hc
      simp

/-- Witness for C1 at a concrete tree with two plugin folders: the calls are
the root and the two immediate plugin children, and never the deeper folder
inside A. -/
theorem clean_project_calls_exact_witness :
    clean_project_calls (FSEntry.dir [("Plugins", FSEntry.dir
        [("A", FSEntry.dir [("deep", FSEntry.dir [])]), ("B", FSEntry.dir [])])])
      = [[], ["Plugins", "A"], ["Plugins", "B"]] := by
  have h := (clean_project_calls_exact
      [("Plugins", FSEntry.dir
        [("A", FSEntry.dir [("deep", FSEntry.dir [])]), ("B", FSEntry.dir [])])]).2
    [("A", FSEntry.dir [("deep", FSEntry.dir [])]), ("B", FSEntry.dir [])] rfl (by decide)
  simpa using h.1

/-- C1 counterexample: when Plugins holds the plain file readme.txt,
clear_directory is invoked on that file as well, although it is not an
immediate child directory of Plugins, so the set of cleaned paths is not
exactly the root plus the immediate child directories. -/
theorem clean_project_calls_file_child_cex :
    clean_project_calls (FSEntry.dir [("Plugins", FSEntry.dir [("readme.txt", FSEntry.file)])])
      = [[], ["Plugins", "readme.txt"]] ∧
    entryAt ["Plugins", "readme.txt"]
        (FSEntry.dir [("Plugins", FSEntry.dir [("readme.txt", FSEntry.file)])])
      = some FSEntry.file :=
  ⟨rfl, rfl⟩

/-- C5 (amended): when the project root directory has no entry at all named
Plugins, clean_project does not raise and does not exit: it cleans the root,
prints the missing-Plugins warning (the true flag) and returns. -/
theorem clean_project_no_plugins (cs : List (String × FSEntry))
    (h : lookupChild cs "Plugins" = none) :
    clean_project (.dir cs) = some (.dir (clearChildren cs), true) := by
  have h' := lookupChild_clearChildren_none cs "Plugins" h
  simp [clean_project, h']

/-- Witness for C5 at a concrete root without a Plugins entry. -/
theorem clean_project_no_plugins_witness :
    clean_project (FSEntry.dir [("Binaries", FSEntry.dir []), ("Other", FSEntry.dir [])])
      = some (FSEntry.dir [("Other", FSEntry.dir [])], true) :=
  clean_project_no_plugins [("Binaries", FSEntry.dir []), ("Other", FSEntry.dir [])] rfl

/-- C5 counterexample: a root whose Plugins entry exists but is a plain file
contains no Plugins subdirectory, yet clean_project raises (os.path.exists
succeeds on line 132, then os.listdir raises on line 137) instead of warning
and returning. -/
theorem clean_project_plugins_file_cex :
    lookupChild [("Plugins", FSEntry.file)] "Plugins" = some FSEntry.file ∧
    clean_project (FSEntry.dir [("Plugins", FSEntry.file)]) = none :=
  ⟨rfl, rfl⟩

/-- C9: given that the root has a Plugins directory, clean_project raises
exactly when some immediate child of Plugins is a plain file: the child is
handed to clear_directory, whose os.listdir raises, and the run crashes;
clean_project completes exactly when every immediate child of Plugins is a
directory. -/
theorem clean_project_total_iff (cs ps : List (String × FSEntry))
    (h : lookupChild (clearChildren cs) "Plugins" = some (.dir ps)) :
    clean_project (.dir cs) = none ↔ ∃ n, (n, FSEntry.file) ∈ ps := by
  simp [clean_project, h, Option.map_eq_none', clearPlugins_eq_none]

/-- Witness for C9: a concrete Plugins directory holding the plain file
a.txt makes clean_project raise. -/
theorem clean_project_total_iff_witness :
    clean_project (FSEntry.dir [("Plugins", FSEntry.dir [("a.txt", FSEntry.file)])]) = none :=
  (clean_project_total_iff [("Plugins", FSEntry.dir [("a.txt", FSEntry.file)])]
    [("a.txt", FSEntry.file)] rfl).mpr ⟨"a.txt", List.mem_cons_self _ _⟩

/-- C6: with the EPIC_DIR environment variable unset, a run exits with
status 1, prints only the missing-configuration diagnostic, leaves the
project root untouched, never enters clean_project and never launches the
external subprocess. -/
theorem main_env_unset (engine_version : String) (w : Env) (h : w.epicDir = none) :
    main engine_version w = ⟨.exit1, some w.root, false, false, [.diagMissingEpicDir]⟩ := by
  simp [main, resolve_engine_path, h]

/-- Witness for C6 at a concrete world with the variable unset. -/
theorem main_env_unset_witness :
    main "UE_5.4" ⟨none, [], [], "/P/MyGame.uproject", true, [],
        FSEntry.dir [("Binaries", FSEntry.dir [])], 0⟩
      = ⟨.exit1, some (FSEntry.dir [("Binaries", FSEntry.dir [])]), false, false,
        [.diagMissingEpicDir]⟩ :=
  main_env_unset "UE_5.4" _ rfl

/-- A process whose lowered name contains devenv.exe makes the Visual Studio
check fire, whatever the project path. -/
theorem is_running_vs_of_devenv (p : String) (procs : List Process)
    (h : ∃ pr ∈ procs, strContains (pyLower pr.name) "devenv.exe" = true) :
    is_running_vs_solution p procs = true := by
  obtain ⟨pr, hmem, hc⟩ := h
  exact List.find?_isSome.mpr ⟨pr, hmem, hc⟩

/-- C7: whenever some running process has a name containing devenv.exe
(case-insensitively), the run ends with exit status 1, the project root is
untouched, clean_project is never reached and no subprocess is launched —
whether the abort happens at the Visual Studio check or at an earlier
validation step, which also exits with status 1 before any deletion. -/
theorem main_aborts_on_devenv (engine_version : String) (w : Env)
    (h : ∃ pr ∈ w.procs, strContains (pyLower pr.name) "devenv.exe" = true) :
    (main engine_version w).outcome = .exit1 ∧
    (main engine_version w).root = some w.root ∧
    (main engine_version w).cleanReached = false ∧
    (main engine_version w).subprocessRan = false := by
  have hvs := is_running_vs_of_devenv w.projectPath w.procs h
  rcases hr : resolve_engine_path engine_version w.epicDir w.dirs with e | ep
  · simp [main, hr]
  · by_cases hp : w.projectIsFile
    · simp [main, hr, hp, hvs]
    · simp [main, hr, hp]

/-- Witness for C7: a concrete world where a DevEnv.exe process is running
and every other validation would succeed. -/
theorem main_aborts_on_devenv_witness :
    (main "UE_5.4" ⟨some "/epic", ["/epic/UE_5.4"], [], "/P/MyGame.uproject", true,
        [⟨"DevEnv.exe", ["MyGame.sln"]⟩], FSEntry.dir [("Binaries", FSEntry.dir [])],
        0⟩).outcome = .exit1 ∧
    (main "UE_5.4" ⟨some "/epic", ["/epic/UE_5.4"], [], "/P/MyGame.uproject", true,
        [⟨"DevEnv.exe", ["MyGame.sln"]⟩], FSEntry.dir [("Binaries", FSEntry.dir [])],
        0⟩).root = some (FSEntry.dir [("Binaries", FSEntry.dir [])]) ∧
    (main "UE_5.4" ⟨some "/epic", ["/epic/UE_5.4"], [], "/P/MyGame.uproject", true,
        [⟨"DevEnv.exe", ["MyGame.sln"]⟩], FSEntry.dir [("Binaries", FSEntry.dir [])],
        0⟩).cleanReached = false ∧
    (main "UE_5.4" ⟨some "/epic", ["/epic/UE_5.4"], [], "/P/MyGame.uproject", true,
        [⟨"DevEnv.exe", ["MyGame.sln"]⟩], FSEntry.dir [("Binaries", FSEntry.dir [])],
        0⟩).subprocessRan = false :=
  main_aborts_on_devenv "UE_5.4" _
    ⟨⟨"DevEnv.exe", ["MyGame.sln"]⟩, List.mem_cons_self _ _, by decide⟩

/-- C8: with the build tool present and the external subprocess returning a
non-zero code, create_project completes normally, logging the launch and the
failure but not aborting, and the whole run still ends with exit status 0. -/
theorem create_project_nonzero_nonfatal (engine_version : String) (w : Env)
    (epic : String) (h1 : w.epicDir = some epic) (h2 : epic ≠ "")
    (h3 : w.dirs.contains (joinPath epic engine_version) = true)
    (h4 : w.projectIsFile = true)
    (h5 : is_running_vs_solution w.projectPath w.procs = false)
    (h6 : is_running_ue_solution w.projectPath w.procs = false)
    (root1 : FSEntry) (warned : Bool)
    (h7 : clean_project w.root = some (root1, warned))
    (h8 : w.files.contains (build_script_path (joinPath epic engine_version)) = true)
    (h9 : w.buildReturncode ≠ 0) :
    create_project (joinPath epic engine_version) w.files w.buildReturncode
        = (.completed false, [.launchedBuild, .buildFailure]) ∧
    (main engine_version w).outcome = .ok := by
  have hrc : (w.buildReturncode == 0) = false := by simpa using h9
  have h3m : joinPath epic engine_version ∈ w.dirs := by simpa using h3
  have h8m : build_script_path (joinPath epic engine_version) ∈ w.files := by simpa using h8
  have hcp : create_project (joinPath epic engine_version) w.files w.buildReturncode
      = (.completed false, [.launchedBuild, .buildFailure]) := by
    simp [create_project, h8m, hrc]
  refine ⟨hcp, ?_⟩
  simp [main, resolve_engine_path, h1, h2, h3m, h4, h5, h6, h7, hcp]

/-- Witness for C8: a concrete world where cleanup succeeds, the build tool
exists and the external tool returns code 1. -/
theorem create_project_nonzero_nonfatal_witness :
    create_project "/E/V" [build_script_path "/E/V"] 1
        = (.completed false, [.launchedBuild, .buildFailure]) ∧
    (main "V" ⟨some "/E", ["/E/V"], [build_script_path "/E/V"], "/P/G.uproject", true, [],
        FSEntry.dir [("Plugins", FSEntry.dir [])], 1⟩).outcome = .ok :=
  create_project_nonzero_nonfatal "V"
    ⟨some "/E", ["/E/V"], [build_script_path "/E/V"], "/P/G.uproject", true, [],
      FSEntry.dir [("Plugins", FSEntry.dir [])], 1⟩
    "/E" rfl (by decide) (by decide) rfl rfl rfl
    (FSEntry.dir [("Plugins", FSEntry.dir [])]) false rfl (by decide) (by decide)

/-- C10: is_running_vs_solution returns the same result for any two project
paths over the same process table — its value is exactly the presence of a
devenv.exe process, so any running Visual Studio instance is reported even
with a different solution open. -/
theorem is_running_vs_solution_ignores_path (p q : String) (procs : List Process) :
    is_running_vs_solution p procs = is_running_vs_solution q procs ∧
    is_running_vs_solution p procs = (is_process_running "devenv.exe" procs).isSome :=
  ⟨rfl, rfl⟩

end SetupPy
